import Mathlib

/-!
Shallow embedding of the overlay calibration and positioning subsystem of
`src/components/reports/ReportWithMapOverlay.tsx` (the percentage-based
variant of `ReportWithMapOverlay`), together with proofs about it.

Percentages and pointer coordinates are modelled as rational numbers: every
arithmetic operation the source performs on them (addition, subtraction,
division by container extents, `Math.min`/`Math.max`) is exact on ℚ.
-/

namespace AbbcrePowerbi

/-- The `clamp` helper of the source:
`const clamp = (val, min, max) => Math.min(Math.max(val, min), max)`. -/
def clamp (val lo hi : ℚ) : ℚ :=
  min (max val lo) hi

/-- The `Position` type of the source: the overlay rectangle, each field a
percentage of the report container. -/
@[ext]
structure Position where
  topPct : ℚ
  leftPct : ℚ
  widthPct : ℚ
  heightPct : ℚ
deriving DecidableEq, Repr

/-- The gesture kinds of the source's `DragState.type`:
`"move" | "resize-se" | "resize-sw" | "resize-ne" | "resize-nw"`. -/
inductive DragType where
  | move
  | resizeSE
  | resizeSW
  | resizeNE
  | resizeNW
deriving DecidableEq, Repr

/-- The `DragState` record of the source: gesture kind, the pointer position
at gesture start (`startX`, `startY` in client pixels), and the snapshot of
the rectangle at gesture start (`startPos`). -/
structure DragState where
  type : DragType
  startX : ℚ
  startY : ℚ
  startPos : Position
deriving DecidableEq, Repr

/-- The state updater inside `handleMouseMove`'s `setPos((prev) => ...)`.
`s` is `drag.startPos` (the anchor snapshot), `dxPct`/`dyPct` the pointer
displacement already converted to percentage space, and `prev` the rectangle
currently held in state. Each branch is a literal transcription of the
corresponding `switch` case (lines 161-210 of the source); the minimum
extent is the literal constant `5` that the source writes in every resize
branch. -/
def applyDrag (type : DragType) (s : Position) (dxPct dyPct : ℚ)
    (prev : Position) : Position :=
  match type with
  | .move =>
      { prev with
        topPct := clamp (s.topPct + dyPct) 0 (100 - s.heightPct),
        leftPct := clamp (s.leftPct + dxPct) 0 (100 - s.widthPct) }
  | .resizeSE =>
      { prev with
        widthPct := clamp (s.widthPct + dxPct) 5 (100 - s.leftPct),
        heightPct := clamp (s.heightPct + dyPct) 5 (100 - s.topPct) }
  | .resizeSW =>
      let newWidth := clamp (s.widthPct - dxPct) 5 (s.leftPct + s.widthPct)
      let newLeft := s.leftPct + (s.widthPct - newWidth)
      { prev with
        leftPct := newLeft,
        widthPct := newWidth,
        heightPct := clamp (s.heightPct + dyPct) 5 (100 - s.topPct) }
  | .resizeNE =>
      let newHeight := clamp (s.heightPct - dyPct) 5 (s.topPct + s.heightPct)
      let newTop := s.topPct + (s.heightPct - newHeight)
      { prev with
        topPct := newTop,
        widthPct := clamp (s.widthPct + dxPct) 5 (100 - s.leftPct),
        heightPct := newHeight }
  | .resizeNW =>
      let newW := clamp (s.widthPct - dxPct) 5 (s.leftPct + s.widthPct)
      let newL := s.leftPct + (s.widthPct - newW)
      let newH := clamp (s.heightPct - dyPct) 5 (s.topPct + s.heightPct)
      let newT := s.topPct + (s.heightPct - newH)
      { topPct := newT, leftPct := newL, widthPct := newW, heightPct := newH }

/-- The interaction-engine operation `applyDelta(kind, anchorRect, dx, dy)`:
the `handleMouseMove` update as a function of the gesture kind, the anchor
snapshot and the percentage deltas. During a gesture every field that a
given `switch` case copies from `prev` is a field that case never writes,
so it still holds its value from the anchor snapshot; `applyDelta` is
therefore `applyDrag` with `prev` instantiated to the anchor. -/
def applyDelta (type : DragType) (anchorRect : Position) (dx dy : ℚ) : Position :=
  applyDrag type anchorRect dx dy anchorRect

/-- The ProportionalRect invariant: the rectangle stays inside the [0,100]
container and never collapses below the minimum extent 5 (the constant the
source's resize branches use). -/
def isValid (r : Position) : Prop :=
  0 ≤ r.topPct ∧ 0 ≤ r.leftPct ∧
  r.topPct + r.heightPct ≤ 100 ∧ r.leftPct + r.widthPct ≤ 100 ∧
  5 ≤ r.widthPct ∧ 5 ≤ r.heightPct

instance isValid_decidable (r : Position) : Decidable (isValid r) := by
  unfold isValid
  infer_instance

/-- The calibration session state of the component: the `calibrating` flag,
the `pos` state, and the `dragRef` cell (`none` when no gesture is in
progress). -/
structure SessionState where
  calibrating : Bool
  pos : Position
  drag : Option DragState
deriving DecidableEq, Repr

/-- The `startDrag` handler (lines 232-254 of the source). Ignoring the
presentation side effects (text-selection suppression and cursor hint), its
whole action on the session state is the unconditional assignment
`dragRef.current = { type, startX, startY, startPos: { ...pos } }`:
it checks neither `calibrating` nor whether a gesture is already in
progress. -/
def startDrag (st : SessionState) (type : DragType) (clientX clientY : ℚ) :
    SessionState :=
  { st with drag := some { type := type, startX := clientX, startY := clientY,
                           startPos := st.pos } }

/-- The `handleMouseUp` handler: clears `dragRef.current` (the style resets
are presentation side effects). -/
def handleMouseUp (st : SessionState) : SessionState :=
  { st with drag := none }

/-- The calibration toggle button's `onClick` (line 384 of the source):
`setCalibrating((v) => !v)` and nothing else. -/
def toggleCalibrating (st : SessionState) : SessionState :=
  { st with calibrating := !st.calibrating }

/-- The reseed effect (lines 139-146 of the source): whenever the four
geometry props change, `setPos` is called with the new prop values. The
effect body has no condition at all: it looks at neither `calibrating` nor
`dragRef`. -/
def reseedEffect (st : SessionState)
    (mapTopPct mapLeftPct mapWidthPct mapHeightPct : ℚ) : SessionState :=
  { st with pos := { topPct := mapTopPct, leftPct := mapLeftPct,
                     widthPct := mapWidthPct, heightPct := mapHeightPct } }

/-- The `handleMouseMove` handler at session level: a no-op when no gesture
is in progress; otherwise it converts the client-pixel displacement since
gesture start into percentage deltas (dividing by the container's pixel
extents) and replaces `pos` with the `applyDrag` update. -/
def handleMouseMove (st : SessionState)
    (clientX clientY rectWidth rectHeight : ℚ) : SessionState :=
  match st.drag with
  | none => st
  | some drag =>
      let dxPct := (clientX - drag.startX) / rectWidth * 100
      let dyPct := (clientY - drag.startY) / rectHeight * 100
      { st with pos := applyDrag drag.type drag.startPos dxPct dyPct st.pos }

/-- A pixel bounding box (origin and extents). -/
structure PixelBox where
  x : ℚ
  y : ℚ
  w : ℚ
  h : ℚ
deriving DecidableEq, Repr

/-- Modelled from the spec: the overlay compositor's
`layout(hostBox, rect) -> overlayBox`. The source (lines 314-323) expresses
this layout as CSS percentage styles (`top: pos.topPct%` etc.) on an
absolutely positioned element filling the host container; the pixel
interpretation of those styles — scale each percentage field by the host
box's extent and offset by the host box's origin — is performed by the
browser, so it is modelled here from the spec's compositor contract. -/
def layout (hostBox : PixelBox) (r : Position) : PixelBox :=
  { x := hostBox.x + r.leftPct / 100 * hostBox.w,
    y := hostBox.y + r.topPct / 100 * hostBox.h,
    w := r.widthPct / 100 * hostBox.w,
    h := r.heightPct / 100 * hostBox.h }

/-- The resize-from-southeast rule exactly as the spec words it, with the
minimum extent as a parameter (the spec presents it as a configurable
option with default 5). Used to compare the spec's rule against the
source's, which hard-codes the constant 5. -/
def resizeSE_specRule (minExtent : ℚ) (anchor : Position) (dx dy : ℚ) :
    Position :=
  { anchor with
    widthPct := clamp (anchor.widthPct + dx) minExtent (100 - anchor.leftPct),
    heightPct := clamp (anchor.heightPct + dy) minExtent (100 - anchor.topPct) }

theorem clamp_le_right (val lo hi : ℚ) : clamp val lo hi ≤ hi :=
  min_le_right _ _

theorem left_le_clamp (val lo hi : ℚ) (h : lo ≤ hi) : lo ≤ clamp val lo hi :=
  le_min (le_max_right _ _) h

theorem clamp_eq_of_le {val lo hi : ℚ} (hlo : lo ≤ val) (hhi : val ≤ hi) :
    clamp val lo hi = val := by
  simp only [clamp]
  rw [max_eq_left hlo, min_eq_left hhi]

/-- C1: for every anchor rectangle satisfying the ProportionalRect invariant,
every gesture kind, and every pair of percentage deltas, the rectangle
produced by `applyDelta` (the `handleMouseMove` update) again satisfies the
ProportionalRect invariant. -/
theorem applyDelta_preserves_isValid (type : DragType) (s : Position)
    (dx dy : ℚ) (hs : isValid s) : isValid (applyDelta type s dx dy) := by
  obtain ⟨h1, h2, h3, h4, h5, h6⟩ := hs
  cases type with
  | move =>
      have ht1 : (0 : ℚ) ≤ clamp (s.topPct + dy) 0 (100 - s.heightPct) :=
        left_le_clamp _ _ _ (by linarith)
      have ht2 : clamp (s.topPct + dy) 0 (100 - s.heightPct) ≤ 100 - s.heightPct :=
        clamp_le_right _ _ _
      have hl1 : (0 : ℚ) ≤ clamp (s.leftPct + dx) 0 (100 - s.widthPct) :=
        left_le_clamp _ _ _ (by linarith)
      have hl2 : clamp (s.leftPct + dx) 0 (100 - s.widthPct) ≤ 100 - s.widthPct :=
        clamp_le_right _ _ _
      simp only [applyDelta, applyDrag, isValid]
      exact ⟨ht1, hl1, by linarith, by linarith, h5, h6⟩
  | resizeSE =>
      have hw1 : (5 : ℚ) ≤ clamp (s.widthPct + dx) 5 (100 - s.leftPct) :=
        left_le_clamp _ _ _ (by linarith)
      have hw2 : clamp (s.widthPct + dx) 5 (100 - s.leftPct) ≤ 100 - s.leftPct :=
        clamp_le_right _ _ _
      have hh1 : (5 : ℚ) ≤ clamp (s.heightPct + dy) 5 (100 - s.topPct) :=
        left_le_clamp _ _ _ (by linarith)
      have hh2 : clamp (s.heightPct + dy) 5 (100 - s.topPct) ≤ 100 - s.topPct :=
        clamp_le_right _ _ _
      simp only [applyDelta, applyDrag, isValid]
      exact ⟨h1, h2, by linarith, by linarith, hw1, hh1⟩
  | resizeSW =>
      have hw1 : (5 : ℚ) ≤ clamp (s.widthPct - dx) 5 (s.leftPct + s.widthPct) :=
        left_le_clamp _ _ _ (by linarith)
      have hw2 : clamp (s.widthPct - dx) 5 (s.leftPct + s.widthPct) ≤
          s.leftPct + s.widthPct := clamp_le_right _ _ _
      have hh1 : (5 : ℚ) ≤ clamp (s.heightPct + dy) 5 (100 - s.topPct) :=
        left_le_clamp _ _ _ (by linarith)
      have hh2 : clamp (s.heightPct + dy) 5 (100 - s.topPct) ≤ 100 - s.topPct :=
        clamp_le_right _ _ _
      simp only [applyDelta, applyDrag, isValid]
      exact ⟨h1, by linarith, by linarith, by linarith, hw1, hh1⟩
  | resizeNE =>
      have hh1 : (5 : ℚ) ≤ clamp (s.heightPct - dy) 5 (s.topPct + s.heightPct) :=
        left_le_clamp _ _ _ (by linarith)
      have hh2 : clamp (s.heightPct - dy) 5 (s.topPct + s.heightPct) ≤
          s.topPct + s.heightPct := clamp_le_right _ _ _
      have hw1 : (5 : ℚ) ≤ clamp (s.widthPct + dx) 5 (100 - s.leftPct) :=
        left_le_clamp _ _ _ (by linarith)
      have hw2 : clamp (s.widthPct + dx) 5 (100 - s.leftPct) ≤ 100 - s.leftPct :=
        clamp_le_right _ _ _
      simp only [applyDelta, applyDrag, isValid]
      exact ⟨by linarith, h2, by linarith, by linarith, hw1, hh1⟩
  | resizeNW =>
      have hw1 : (5 : ℚ) ≤ clamp (s.widthPct - dx) 5 (s.leftPct + s.widthPct) :=
        left_le_clamp _ _ _ (by linarith)
      have hw2 : clamp (s.widthPct - dx) 5 (s.leftPct + s.widthPct) ≤
          s.leftPct + s.widthPct := clamp_le_right _ _ _
      have hh1 : (5 : ℚ) ≤ clamp (s.heightPct - dy) 5 (s.topPct + s.heightPct) :=
        left_le_clamp _ _ _ (by linarith)
      have hh2 : clamp (s.heightPct - dy) 5 (s.topPct + s.heightPct) ≤
          s.topPct + s.heightPct := clamp_le_right _ _ _
      simp only [applyDelta, applyDrag, isValid]
      exact ⟨by linarith, by linarith, by linarith, by linarith, hw1, hh1⟩

/-- Witness for C1 at a concrete input: the default rectangle is valid and
stays valid under a large move delta. -/
theorem applyDelta_preserves_isValid_witness :
    isValid (⟨25, 55, 43, 65⟩ : Position) ∧
    isValid (applyDelta .move ⟨25, 55, 43, 65⟩ (-200) 0) :=
  ⟨by norm_num [isValid],
   applyDelta_preserves_isValid .move ⟨25, 55, 43, 65⟩ (-200) 0
     (by norm_num [isValid])⟩

/-- C2: the move gesture clamps `top` into `[0, 100 - height]` and `left`
into `[0, 100 - width]`, leaving width and height unchanged; at the
concrete anchor `⟨25, 55, 43, 65⟩` with `dx = -200`, `dy = 0` the result is
`left = 0` with top, width and height equal to the anchor's. -/
theorem applyDelta_move_rule :
    (∀ (s : Position) (dx dy : ℚ),
        applyDelta .move s dx dy =
          { s with topPct := clamp (s.topPct + dy) 0 (100 - s.heightPct),
                   leftPct := clamp (s.leftPct + dx) 0 (100 - s.widthPct) }) ∧
    applyDelta .move ⟨25, 55, 43, 65⟩ (-200) 0 = ⟨25, 0, 43, 65⟩ := by
  constructor
  · intro s dx dy
    rfl
  · norm_num [applyDelta, applyDrag, clamp]

/-- C3 counterexample: the claim quantifies over a configurable minimum
extent, but the source's resize branch hard-codes the constant 5. With
`minExtent = 10`, the spec's rule at anchor `⟨10, 10, 10, 10⟩` and deltas
`(-50, -50)` would floor width and height at 10, while the code floors them
at 5, so the rule with a configurable minimum does not describe the code. -/
theorem resizeSE_minExtent_not_configurable :
    applyDelta .resizeSE ⟨10, 10, 10, 10⟩ (-50) (-50) ≠
      resizeSE_specRule 10 ⟨10, 10, 10, 10⟩ (-50) (-50) := by
  norm_num [applyDelta, applyDrag, resizeSE_specRule, clamp]

/-- C3 amended: with the minimum extent fixed at the source's constant 5,
the resize-from-southeast gesture yields
`width = clamp(anchor.width + dx, 5, 100 - anchor.left)` and
`height = clamp(anchor.height + dy, 5, 100 - anchor.top)` with top and left
unchanged, and the concrete instance
`applyDelta resize-se ⟨10, 10, 10, 10⟩ (-50) (-50)` yields width 5 and
height 5. -/
theorem applyDelta_resizeSE_rule_min_five :
    (∀ (s : Position) (dx dy : ℚ),
        applyDelta .resizeSE s dx dy = resizeSE_specRule 5 s dx dy) ∧
    (applyDelta .resizeSE ⟨10, 10, 10, 10⟩ (-50) (-50)).widthPct = 5 ∧
    (applyDelta .resizeSE ⟨10, 10, 10, 10⟩ (-50) (-50)).heightPct = 5 := by
  refine ⟨fun s dx dy => rfl, ?_, ?_⟩ <;> norm_num [applyDelta, applyDrag, clamp]

/-- C4: the resize-from-northwest gesture keeps the southeast corner of the
anchor fixed: the produced rectangle satisfies
`top + height = anchor.top + anchor.height` and
`left + width = anchor.left + anchor.width` for every delta (exactly, in
the exact-arithmetic model). -/
theorem applyDelta_resizeNW_fixed_se_corner (s : Position) (dx dy : ℚ) :
    (applyDelta .resizeNW s dx dy).topPct + (applyDelta .resizeNW s dx dy).heightPct
        = s.topPct + s.heightPct ∧
    (applyDelta .resizeNW s dx dy).leftPct + (applyDelta .resizeNW s dx dy).widthPct
        = s.leftPct + s.widthPct := by
  constructor <;> simp only [applyDelta, applyDrag] <;> ring

/-- C5: for every rectangle satisfying the ProportionalRect invariant and
every gesture kind, `applyDelta` with zero deltas returns the rectangle
unchanged. -/
theorem applyDelta_zero_delta_eq_self (type : DragType) (r : Position)
    (hr : isValid r) : applyDelta type r 0 0 = r := by
  obtain ⟨a, b, c, d⟩ := r
  simp only [isValid] at hr
  obtain ⟨h1, h2, h3, h4, h5, h6⟩ := hr
  cases type with
  | move =>
      have e1 : clamp a 0 (100 - d) = a := clamp_eq_of_le h1 (by linarith)
      have e2 : clamp b 0 (100 - c) = b := clamp_eq_of_le h2 (by linarith)
      simp [applyDelta, applyDrag, e1, e2]
  | resizeSE =>
      have e1 : clamp c 5 (100 - b) = c := clamp_eq_of_le h5 (by linarith)
      have e2 : clamp d 5 (100 - a) = d := clamp_eq_of_le h6 (by linarith)
      simp [applyDelta, applyDrag, e1, e2]
  | resizeSW =>
      have e1 : clamp c 5 (b + c) = c := clamp_eq_of_le h5 (by linarith)
      have e2 : clamp d 5 (100 - a) = d := clamp_eq_of_le h6 (by linarith)
      simp [applyDelta, applyDrag, e1, e2]
  | resizeNE =>
      have e1 : clamp d 5 (a + d) = d := clamp_eq_of_le h6 (by linarith)
      have e2 : clamp c 5 (100 - b) = c := clamp_eq_of_le h5 (by linarith)
      simp [applyDelta, applyDrag, e1, e2]
  | resizeNW =>
      have e1 : clamp c 5 (b + c) = c := clamp_eq_of_le h5 (by linarith)
      have e2 : clamp d 5 (a + d) = d := clamp_eq_of_le h6 (by linarith)
      simp [applyDelta, applyDrag, e1, e2]

/-- Witness for C5 at a concrete input: the default rectangle is valid and
zero-delta northwest resize leaves it unchanged. -/
theorem applyDelta_zero_delta_eq_self_witness :
    isValid (⟨25, 55, 43, 65⟩ : Position) ∧
    applyDelta .resizeNW ⟨25, 55, 43, 65⟩ 0 0 = ⟨25, 55, 43, 65⟩ :=
  ⟨by norm_num [isValid],
   applyDelta_zero_delta_eq_self .resizeNW ⟨25, 55, 43, 65⟩
     (by norm_num [isValid])⟩

/-- C6 counterexample: `startDrag` is not a no-op when a gesture is already
in progress. Starting a move gesture at pointer (0, 0) and then, without an
intervening mouse-up, starting a southeast resize at pointer (7, 9) leaves
the gesture state of the second call in effect, not the anchor snapshot
recorded by the first call. -/
theorem startDrag_second_call_wins_counterexample :
    (startDrag (startDrag ⟨true, ⟨25, 55, 43, 65⟩, none⟩ .move 0 0)
        .resizeSE 7 9).drag ≠
      (startDrag ⟨true, ⟨25, 55, 43, 65⟩, none⟩ .move 0 0).drag := by
  simp [startDrag]

/-- C6 amended: `startDrag` guards on nothing — it unconditionally replaces
the gesture cell with a fresh snapshot taken at the moment of the call
(leaving `calibrating` and `pos` untouched), so a second call without an
intervening mouse-up overwrites the first call's anchor rather than being
ignored. -/
theorem startDrag_records_new_gesture_unconditionally (st : SessionState)
    (t : DragType) (x y : ℚ) :
    (startDrag st t x y).drag = some ⟨t, x, y, st.pos⟩ ∧
    (startDrag st t x y).calibrating = st.calibrating ∧
    (startDrag st t x y).pos = st.pos :=
  ⟨rfl, rfl, rfl⟩

/-- C7 counterexample: toggling calibration from on to off does not end an
in-progress gesture. With a move gesture in the drag cell, the toggle
leaves `calibrating = false` but the gesture state still present. -/
theorem toggleCalibrating_keeps_gesture_counterexample :
    (⟨true, ⟨25, 55, 43, 65⟩,
        some ⟨.move, 0, 0, ⟨25, 55, 43, 65⟩⟩⟩ : SessionState).calibrating = true ∧
    (toggleCalibrating ⟨true, ⟨25, 55, 43, 65⟩,
        some ⟨.move, 0, 0, ⟨25, 55, 43, 65⟩⟩⟩).calibrating = false ∧
    (toggleCalibrating ⟨true, ⟨25, 55, 43, 65⟩,
        some ⟨.move, 0, 0, ⟨25, 55, 43, 65⟩⟩⟩).drag ≠ none := by
  refine ⟨rfl, rfl, ?_⟩
  simp [toggleCalibrating]

/-- C7 amended: the calibration toggle only flips the `calibrating` flag
and leaves any in-progress gesture state in place (turning calibration off
removes the document listeners but does not destroy the gesture); the
gesture cell is cleared only by `handleMouseUp`. -/
theorem toggleCalibrating_preserves_gesture (st : SessionState) :
    (toggleCalibrating st).drag = st.drag ∧
    (toggleCalibrating st).calibrating = !st.calibrating ∧
    (handleMouseUp st).drag = none :=
  ⟨rfl, rfl, rfl⟩

/-- C8: when the four externally supplied geometry props change while no
gesture is active, the reseed effect replaces `pos` exactly with the new
prop values, whatever `calibrating` is and whatever edits the previous
`pos` held. -/
theorem reseedEffect_replaces_rect (st : SessionState) (t l w h : ℚ)
    (hd : st.drag = none) :
    (reseedEffect st t l w h).pos = ⟨t, l, w, h⟩ ∧
    (reseedEffect st t l w h).calibrating = st.calibrating :=
  ⟨rfl, rfl⟩

/-- Witness for C8 at a concrete input: an active session whose rectangle
diverged from the props is reseeded exactly to the new prop values. -/
theorem reseedEffect_replaces_rect_witness :
    (reseedEffect ⟨true, ⟨30, 40, 20, 20⟩, none⟩ 1 2 30 40).pos
      = ⟨1, 2, 30, 40⟩ :=
  (reseedEffect_replaces_rect ⟨true, ⟨30, 40, 20, 20⟩, none⟩ 1 2 30 40 rfl).1

/-- C9: the compositor scales the rectangle's percentage fields by the host
box's extents and offsets by the host box's origin; in particular the host
box `⟨0, 0, 1000, 500⟩` and rectangle `⟨25, 55, 43, 65⟩` give the pixel box
`⟨550, 125, 430, 325⟩`. -/
theorem layout_scales_and_offsets :
    (∀ (hostBox : PixelBox) (r : Position),
        layout hostBox r =
          ⟨hostBox.x + r.leftPct / 100 * hostBox.w,
           hostBox.y + r.topPct / 100 * hostBox.h,
           r.widthPct / 100 * hostBox.w,
           r.heightPct / 100 * hostBox.h⟩) ∧
    layout ⟨0, 0, 1000, 500⟩ ⟨25, 55, 43, 65⟩ = ⟨550, 125, 430, 325⟩ := by
  refine ⟨fun hostBox r => rfl, ?_⟩
  norm_num [layout]

/-- C10: the reseed effect is unconditional — if the props change while a
gesture is in progress, `pos` is still replaced with the new prop values
and the gesture survives untouched; the next pointer-move then recomputes
the gesture-updated fields from the gesture's anchor snapshot (`applyDrag`
applied to `drag.startPos`), with the reseeded rectangle only in the
`prev` role. -/
theorem reseedEffect_ignores_active_gesture (st : SessionState)
    (d : DragState) (t l w h : ℚ) (hd : st.drag = some d) :
    (reseedEffect st t l w h).pos = ⟨t, l, w, h⟩ ∧
    (reseedEffect st t l w h).drag = some d ∧
    ∀ cx cy cw ch : ℚ,
      (handleMouseMove (reseedEffect st t l w h) cx cy cw ch).pos =
        applyDrag d.type d.startPos ((cx - d.startX) / cw * 100)
          ((cy - d.startY) / ch * 100) ⟨t, l, w, h⟩ := by
  refine ⟨rfl, ?_, ?_⟩
  · simpa [reseedEffect] using hd
  · intro cx cy cw ch
    simp [handleMouseMove, reseedEffect, hd]

/-- Witness for C10 at a concrete input: a mid-gesture prop change replaces
the rectangle, keeps the gesture, and the next pointer-move computes from
the anchor snapshot. -/
theorem reseedEffect_ignores_active_gesture_witness :
    (reseedEffect ⟨true, ⟨25, 55, 43, 65⟩,
        some ⟨.move, 3, 4, ⟨25, 55, 43, 65⟩⟩⟩ 1 2 30 40).pos = ⟨1, 2, 30, 40⟩ ∧
    (reseedEffect ⟨true, ⟨25, 55, 43, 65⟩,
        some ⟨.move, 3, 4, ⟨25, 55, 43, 65⟩⟩⟩ 1 2 30 40).drag
      = some ⟨.move, 3, 4, ⟨25, 55, 43, 65⟩⟩ ∧
    (handleMouseMove (reseedEffect ⟨true, ⟨25, 55, 43, 65⟩,
        some ⟨.move, 3, 4, ⟨25, 55, 43, 65⟩⟩⟩ 1 2 30 40) 10 20 200 100).pos =
      applyDrag .move ⟨25, 55, 43, 65⟩ ((10 - 3) / 200 * 100)
        ((20 - 4) / 100 * 100) ⟨1, 2, 30, 40⟩ := by
  have h := reseedEffect_ignores_active_gesture
      ⟨true, ⟨25, 55, 43, 65⟩, some ⟨.move, 3, 4, ⟨25, 55, 43, 65⟩⟩⟩
      ⟨.move, 3, 4, ⟨25, 55, 43, 65⟩⟩ 1 2 30 40 rfl
  exact ⟨h.1, h.2.1, h.2.2 10 20 200 100⟩

end AbbcrePowerbi
